import Mathlib

/-!
Verification of the webhook ingress and PR comment publisher of
`apps/api/src/index.ts` and `apps/api/src/lib/github.ts`.

The two route handlers are shallowly embedded as pure Lean functions.
External collaborators are modelled as explicit parameters:

* `webhooks.verify` (signature verification by the `@octokit/webhooks`
  library) is an oracle `verify : String → String → Except String Bool`
  on the raw body and the supplied signature header.  The library
  resolves a boolean — `false` for a mismatched signature — and throws
  only on a missing or non-string argument; `Except.error` models that
  throw (routed by the handler's `try/catch` to the 401 response) and
  `Except.ok b` the resolved boolean, which `index.ts` line 34 discards
  without inspecting it.
* `JSON.parse` is an oracle `parseJson : String → Option Json`; `none`
  models the thrown parse error.
* The Octokit REST client used by `createReviewComment` is a record of
  oracles (`GithubApi`), each returning either a value or a thrown error
  carrying a detail string.

JavaScript values that can appear in a parsed payload are modelled by
`Json` (numbers restricted to integers; no claim depends on float
formatting).  Property access `payload.k` throws a TypeError when the
receiver is JSON `null`, which the embedding tracks with `Except`;
optional-chained access `x?.k` never throws.  `console.log` output is
modelled as the list of produced log lines.
-/

/-- JSON values as produced by `JSON.parse` (objects are association
lists; the parser collapses duplicate keys before this model sees them). -/
inductive Json where
  | null : Json
  | bool (b : Bool) : Json
  | num (n : Int) : Json
  | str (s : String) : Json
  | arr (elems : List Json) : Json
  | obj (fields : List (String × Json)) : Json

mutual

/-- JavaScript string conversion as used by template literals:
`null` prints "null", booleans print "true"/"false", objects print
"[object Object]", arrays join their elements with commas. -/
def jsToString : Json → String
  | Json.null => "null"
  | Json.bool b => cond b "true" "false"
  | Json.num n => toString n
  | Json.str s => s
  | Json.obj _ => "[object Object]"
  | Json.arr xs => jsArrJoin xs

/-- `Array.prototype.toString`: elements joined by ",", a `null`
element contributing the empty string. -/
def jsArrJoin : List Json → String
  | [] => ""
  | [Json.null] => ""
  | [j] => jsToString j
  | Json.null :: rest => "," ++ jsArrJoin rest
  | j :: rest => jsToString j ++ "," ++ jsArrJoin rest

end

/-- First binding of a key in an object's field list. -/
def lookupField : List (String × Json) → String → Option Json
  | [], _ => none
  | (k, v) :: rest, key => if k = key then some v else lookupField rest key

/-- JavaScript property access on a value already known not to be
`null`/`undefined`: objects look the key up, every other receiver
yields `undefined` (`none`). -/
def jsLookup : Json → String → Option Json
  | Json.obj fields, key => lookupField fields key
  | _, _ => none

/-- Optional-chained access `x?.key`: short-circuits to `undefined`
when `x` is `undefined` or `null`, otherwise plain property access.
It never throws. -/
def optChainGet : Option Json → String → Option Json
  | none, _ => none
  | some Json.null, _ => none
  | some j, key => jsLookup j key

/-- Template-literal rendering of a possibly-`undefined` value. -/
def showOptJs : Option Json → String
  | none => "undefined"
  | some j => jsToString j

/-- Template-literal rendering of a possibly-`undefined` string. -/
def showOptStr : Option String → String
  | none => "undefined"
  | some s => s

/-- One inbound delivery to `POST /api/webhooks`: the three GitHub
headers (absent header = `none`) and the raw body text (`c.req.text()`
yields `""` when there is no body). -/
structure WebhookRequest where
  eventHeader : Option String
  deliveryHeader : Option String
  signatureHeader : Option String
  body : String

/-- Body of a JSON response of the webhook route: either `{error: msg}`
or the acknowledgement `{ok: true, event, deliveryId}`. -/
inductive RespBody where
  | errorMsg (msg : String) : RespBody
  | ack (event : String) (deliveryId : Option String) : RespBody
deriving DecidableEq

/-- An HTTP response of the webhook route: status code plus JSON body. -/
structure Response where
  status : Nat
  respBody : RespBody
deriving DecidableEq

/-- The 400 response for a missing header or empty body
(`index.ts` line 30). -/
def missingResponse : Response :=
  ⟨400, RespBody.errorMsg "Missing required headers or body"⟩

/-- Log line `Pull request #_: _ (_) by _` (`index.ts` line 56),
with every field read by (optional-chained) property access. -/
def prHeadLine (payload : Json) : String :=
  let action := jsLookup payload "action"
  let pr := jsLookup payload "pull_request"
  let prNumber := optChainGet pr "number"
  let title := optChainGet pr "title"
  let author := optChainGet (optChainGet pr "user") "login"
  "Pull request #" ++ showOptJs prNumber ++ ": " ++ showOptJs title ++
    " (" ++ showOptJs action ++ ") by " ++ showOptJs author

/-- Log line produced by the `switch (action)` (`index.ts` lines 58-74). -/
def prActionLine (payload : Json) : String :=
  let action := jsLookup payload "action"
  let pr := jsLookup payload "pull_request"
  let prNumber := optChainGet pr "number"
  let author := optChainGet (optChainGet pr "user") "login"
  match action with
  | some (Json.str "opened") =>
      "New pull request #" ++ showOptJs prNumber ++ " opened by " ++ showOptJs author
  | some (Json.str "closed") =>
      "Pull request #" ++ showOptJs prNumber ++ " closed (merged: " ++
        showOptJs (optChainGet pr "merged") ++ ")"
  | some (Json.str "reopened") =>
      "Pull request #" ++ showOptJs prNumber ++ " reopened"
  | some (Json.str "synchronize") =>
      "Pull request #" ++ showOptJs prNumber ++ " updated with new commits"
  | _ =>
      "Pull request #" ++ showOptJs prNumber ++ " action: " ++ showOptJs action

/-- The `pull_request` branch of the handler (`index.ts` lines 50-75).
`payload.action` is a bare property access, so a `null` payload throws a
TypeError (modelled as `Except.error`); every other payload yields the
two log lines. -/
def dispatchPullRequest (payload : Json) : Except String (List String) :=
  match payload with
  | Json.null => Except.error "TypeError: Cannot read properties of null"
  | _ => Except.ok [prHeadLine payload, prActionLine payload]

/-- The `POST /api/webhooks` handler (`index.ts` lines 23-78), embedded
over the two external oracles.  The `await webhooks.verify(body,
signature)` on line 34 sits in a `try/catch` whose catch answers 401, so
the 401 path fires exactly when the library throws (`Except.error`); the
boolean the library resolves on a mere signature mismatch is discarded
(the `Except.ok` arm ignores it) and processing continues.  The result is
`Except.error` exactly when the handler itself throws (the hosting
framework then answers with its own 500, not with any of the handler's
structured responses); otherwise it is the response together with the
`console.log` lines emitted on the successful path. -/
def handleWebhook (verify : String → String → Except String Bool)
    (parseJson : String → Option Json) (req : WebhookRequest) :
    Except String (Response × List String) :=
  match req.eventHeader, req.signatureHeader with
  | some ev, some sig =>
    if ev = "" || sig = "" || req.body = "" then
      Except.ok (missingResponse, [])
    else
      match verify req.body sig with
      | Except.error _ =>
          Except.ok (⟨401, RespBody.errorMsg "Invalid signature"⟩, [])
      | Except.ok _ =>
        match parseJson req.body with
        | none => Except.ok (⟨400, RespBody.errorMsg "Invalid JSON payload"⟩, [])
        | some payload =>
          let recvLine := "Received GitHub webhook: " ++ ev ++ " (delivery: " ++
            showOptStr req.deliveryHeader ++ ")"
          if ev = "pull_request" then
            match dispatchPullRequest payload with
            | Except.error e => Except.error e
            | Except.ok prLogs =>
                Except.ok (⟨200, RespBody.ack ev req.deliveryHeader⟩, recvLine :: prLogs)
          else
            Except.ok (⟨200, RespBody.ack ev req.deliveryHeader⟩, [recvLine])
  | none, _ => Except.ok (missingResponse, [])
  | _, none => Except.ok (missingResponse, [])

/-- The server handling a sequence of deliveries: the handler closes
over only the immutable secret and route table, so consecutive requests
are processed independently, with no state carried between them. -/
def processDeliveries (verify : String → String → Except String Bool)
    (parseJson : String → Option Json) (reqs : List WebhookRequest) :
    List (Except String (Response × List String)) :=
  reqs.map (handleWebhook verify parseJson)

/-!  Embedding of `apps/api/src/lib/github.ts` (`createReviewComment`). -/

/-- A JavaScript number produced by `parseInt`: either `NaN` or an
integer value. -/
inductive JsParsedInt where
  | nan : JsParsedInt
  | val (n : Int) : JsParsedInt
deriving DecidableEq

/-- Decimal digits at the front of a character list. -/
def leadingDigits (cs : List Char) : List Char :=
  cs.takeWhile (fun c => c.isDigit)

/-- Value of a non-empty list of decimal digits. -/
def digitsToNat (cs : List Char) : Nat :=
  cs.foldl (fun acc c => acc * 10 + (c.toNat - 48)) 0

/-- `parseInt(s, 10)`: skip leading whitespace, read an optional sign
and then the longest decimal-digit run; `NaN` when no digit follows. -/
def parseInt10 (s : String) : JsParsedInt :=
  let cs := s.toList.dropWhile (fun c => c = ' ' || c = '\t' || c = '\n' || c = '\r')
  match cs with
  | '-' :: rest =>
    match leadingDigits rest with
    | [] => JsParsedInt.nan
    | ds => JsParsedInt.val (-(digitsToNat ds : Int))
  | '+' :: rest =>
    match leadingDigits rest with
    | [] => JsParsedInt.nan
    | ds => JsParsedInt.val (digitsToNat ds)
  | _ =>
    match leadingDigits cs with
    | [] => JsParsedInt.nan
    | ds => JsParsedInt.val (digitsToNat ds)

/-- JavaScript truthiness of a `string | undefined` value: falsy when
absent or the empty string. -/
def optTruthy : Option String → Bool
  | none => false
  | some s => s != ""

/-- The process environment as read by `createReviewComment`
(`github.ts` lines 11-13). -/
structure GithubEnv where
  GITHUB_APP_ID : Option String
  GITHUB_PRIVATE_KEY : Option String
  GITHUB_INSTALLATION_ID : Option String

/-- The `auth` options object passed to the Octokit constructor
(`github.ts` lines 21-28).  The `installationId` field is spread in
only when `GITHUB_INSTALLATION_ID` is truthy; its value is then the
`parseInt` of the variable. -/
structure OctokitAuthOptions where
  appId : JsParsedInt
  privateKey : String
  installationId : Option JsParsedInt
deriving DecidableEq

/-- Build the Octokit `auth` options exactly as `github.ts` lines 24-26. -/
def octokitAuthOptions (appId privateKey : String)
    (installationId : Option String) : OctokitAuthOptions :=
  ⟨parseInt10 appId, privateKey,
    if optTruthy installationId then some (parseInt10 (installationId.getD "")) else none⟩

/-- The `type` passed to `octokit.auth` (`github.ts` line 32):
`"installation"` when `GITHUB_INSTALLATION_ID` is truthy, `"app"`
otherwise. -/
def authRequestType (installationId : Option String) : String :=
  if optTruthy installationId then "installation" else "app"

/-- Outcome of a call into the external Octokit client: a value, or a
thrown error carrying its detail message. -/
inductive ApiResult (α : Type) where
  | ok (val : α) : ApiResult α
  | err (detail : String) : ApiResult α
deriving DecidableEq

/-- The `GET /app` response data consumed by the handler. -/
structure AppData where
  slug : String
deriving DecidableEq

/-- The created comment's fields consumed by the handler. -/
structure CommentData where
  id : Int
  html_url : String
deriving DecidableEq

/-- The external Octokit client, as the three calls the function makes:
`octokit.auth({type})` (returning the authentication type),
`octokit.request("GET /app")` (whose data may be absent, i.e. falsy),
and `octokit.rest.issues.createComment`. -/
structure GithubApi where
  auth : OctokitAuthOptions → String → ApiResult String
  getApp : OctokitAuthOptions → ApiResult (Option AppData)
  createComment : OctokitAuthOptions → String → String → Int → String → ApiResult CommentData

/-- Body of a JSON response of the comment publisher. -/
inductive GHBody where
  | errorMsg (msg : String) : GHBody
  | success (message : String) (commentId : Int) (commentUrl : String) : GHBody
deriving DecidableEq

/-- An HTTP response of the comment publisher (`c.json` without an
explicit status answers 200). -/
structure GHResponse where
  status : Nat
  respBody : GHBody
deriving DecidableEq

/-- `createReviewComment` (`github.ts` lines 7-74): missing or empty
`GITHUB_APP_ID`/`GITHUB_PRIVATE_KEY` answer 500 before any client is
built; otherwise the three external calls run in order inside one
`try/catch` whose catch answers the generic 500, and a falsy `GET /app`
data answers its own 500. -/
def createReviewComment (api : GithubApi) (env : GithubEnv)
    (owner repo : String) (pullNumber : Int) (body : String) : GHResponse :=
  if !(optTruthy env.GITHUB_APP_ID) || !(optTruthy env.GITHUB_PRIVATE_KEY) then
    ⟨500, GHBody.errorMsg "Missing GITHUB_APP_ID or GITHUB_PRIVATE_KEY environment variables"⟩
  else
    let opts := octokitAuthOptions (env.GITHUB_APP_ID.getD "")
      (env.GITHUB_PRIVATE_KEY.getD "") env.GITHUB_INSTALLATION_ID
    match api.auth opts (authRequestType env.GITHUB_INSTALLATION_ID) with
    | ApiResult.err _ => ⟨500, GHBody.errorMsg "Failed to create review comment"⟩
    | ApiResult.ok _ =>
      match api.getApp opts with
      | ApiResult.err _ => ⟨500, GHBody.errorMsg "Failed to create review comment"⟩
      | ApiResult.ok none => ⟨500, GHBody.errorMsg "Failed to retrieve app data"⟩
      | ApiResult.ok (some _) =>
        match api.createComment opts owner repo pullNumber body with
        | ApiResult.err _ => ⟨500, GHBody.errorMsg "Failed to create review comment"⟩
        | ApiResult.ok comment =>
            ⟨200, GHBody.success "Review comment created successfully" comment.id comment.html_url⟩

/-!  Helper lemmas and concrete instances shared by the claim proofs. -/

/-- A non-`null` payload makes the `pull_request` branch produce its two
log lines without throwing. -/
theorem dispatchPullRequest_ok (payload : Json) (h : payload ≠ Json.null) :
    dispatchPullRequest payload =
      Except.ok [prHeadLine payload, prActionLine payload] := by
  cases payload <;> first | exact absurd rfl h | rfl

/-- A concrete client whose three calls all succeed. -/
def apiAllOk : GithubApi :=
  ⟨fun _ _ => ApiResult.ok "app",
   fun _ => ApiResult.ok (some ⟨"my-app"⟩),
   fun _ _ _ _ _ => ApiResult.ok ⟨101, "https://example.test/101"⟩⟩

/-- A concrete client whose authentication call throws. -/
def apiAuthError : GithubApi :=
  ⟨fun _ _ => ApiResult.err "jwt expired",
   fun _ => ApiResult.ok (some ⟨"my-app"⟩),
   fun _ _ _ _ _ => ApiResult.ok ⟨101, "https://example.test/101"⟩⟩

/-- A `pull_request` payload with action `closed`, number 7, merged flag
set. -/
def payloadClosedMerged : Json :=
  Json.obj [("action", Json.str "closed"),
    ("pull_request", Json.obj [("number", Json.num 7), ("merged", Json.bool true)])]

/-!  The claims. -/

/-- C1 (code bug): `index.ts` line 34 discards the boolean that
`webhooks.verify` resolves, and the library throws only on a missing or
non-string argument — which the presence check rules out — never on a
mere mismatch.  So the handler's response does not depend on whether the
signature matches: for every request, a verification oracle resolving
`false` (mismatch) yields the same result as one resolving `true`, and
on a concrete mismatching delivery the body is parsed and the 200
acknowledgement returned instead of the claimed 401
`{error: "Invalid signature"}`, which would require a thrown error. -/
theorem webhook_mismatch_not_rejected :
    (∀ (b1 b2 : Bool) (parseJson : String → Option Json) (req : WebhookRequest),
      handleWebhook (fun _ _ => Except.ok b1) parseJson req =
        handleWebhook (fun _ _ => Except.ok b2) parseJson req) ∧
    handleWebhook (fun _ _ => Except.ok false) (fun _ => some (Json.obj []))
      ⟨some "push", some "dlv-1", some "sha256=mismatch", "payload"⟩ =
      Except.ok (⟨200, RespBody.ack "push" (some "dlv-1")⟩,
        ["Received GitHub webhook: push (delivery: dlv-1)"]) := by
  constructor
  · rintro b1 b2 parseJson ⟨e, d, s, b⟩
    cases e <;> cases s <;> rfl
  · rfl

/-- C2: a missing or empty event header, signature header or body is
answered 400 `{error: "Missing required headers or body"}` whatever the
verification and parse oracles (so neither runs), while a request that is
complete except for the delivery header never produces this error. -/
theorem webhook_missing_fields (verify : String → String → Except String Bool)
    (parseJson : String → Option Json) :
    (∀ req : WebhookRequest,
      req.eventHeader = none ∨ req.eventHeader = some "" ∨
        req.signatureHeader = none ∨ req.signatureHeader = some "" ∨ req.body = "" →
      handleWebhook verify parseJson req = Except.ok (missingResponse, [])) ∧
    (∀ ev sig b : String, ∀ resp : Response, ∀ logs : List String,
      ev ≠ "" → sig ≠ "" → b ≠ "" →
      handleWebhook verify parseJson ⟨some ev, none, some sig, b⟩ =
        Except.ok (resp, logs) →
      resp ≠ missingResponse) := by
  constructor
  · rintro ⟨e, d, s, b⟩ h
    cases e with
    | none => simp [handleWebhook]
    | some a =>
      cases s with
      | none => simp [handleWebhook]
      | some c =>
        rcases h with h | h | h | h | h
        · exact absurd h (by simp)
        · simp only [Option.some.injEq] at h
          subst h
          simp [handleWebhook]
        · exact absurd h (by simp)
        · simp only [Option.some.injEq] at h
          subst h
          simp [handleWebhook]
        · subst h
          simp [handleWebhook]
  · intro ev sig b resp logs hev hsig hb hrun
    cases hv : verify b sig with
    | error err =>
      simp [handleWebhook, hev, hsig, hb, hv] at hrun
      rcases hrun with ⟨h1, _⟩
      subst h1
      simp [missingResponse]
    | ok bv =>
      cases hp : parseJson b with
      | none =>
        simp [handleWebhook, hev, hsig, hb, hv, hp] at hrun
        rcases hrun with ⟨h1, _⟩
        subst h1
        simp [missingResponse]
      | some payload =>
        by_cases hpr : ev = "pull_request"
        · subst hpr
          cases hd : dispatchPullRequest payload with
          | error e => simp [handleWebhook, hsig, hb, hv, hp, hd] at hrun
          | ok prLogs =>
            simp [handleWebhook, hsig, hb, hv, hp, hd] at hrun
            rcases hrun with ⟨h1, _⟩
            subst h1
            simp [missingResponse]
        · simp [handleWebhook, hev, hsig, hb, hv, hp, hpr] at hrun
          rcases hrun with ⟨h1, _⟩
          subst h1
          simp [missingResponse]

/-- C2 witness: a delivery missing the event header is answered with the
missing-fields 400 even though the other parts are present. -/
theorem webhook_missing_fields_witness :
    handleWebhook (fun _ _ => Except.ok true) (fun _ => none)
      ⟨none, some "dlv-2", some "sha256=w2", "z"⟩ =
      Except.ok (missingResponse, []) :=
  (webhook_missing_fields _ _).1 _ (Or.inl rfl)

/-- C3: a request that passes the presence check and whose signature
verifies, but whose body the JSON parser rejects, is answered 400
`{error: "Invalid JSON payload"}`. -/
theorem webhook_invalid_json
    (verify : String → String → Except String Bool) (parseJson : String → Option Json)
    (ev sig b : String) (dId : Option String)
    (hev : ev ≠ "") (hsig : sig ≠ "") (hb : b ≠ "")
    (hv : verify b sig = Except.ok true) (hp : parseJson b = none) :
    handleWebhook verify parseJson ⟨some ev, dId, some sig, b⟩ =
      Except.ok (⟨400, RespBody.errorMsg "Invalid JSON payload"⟩, []) := by
  simp [handleWebhook, hev, hsig, hb, hv, hp]

/-- C3 witness: a verified delivery with an unparseable body is answered
with the invalid-JSON 400. -/
theorem webhook_invalid_json_witness :
    handleWebhook (fun _ _ => Except.ok true) (fun _ => none)
      ⟨some "push", some "dlv-3", some "sha256=w3", "not json"⟩ =
      Except.ok (⟨400, RespBody.errorMsg "Invalid JSON payload"⟩, []) :=
  webhook_invalid_json _ _ _ _ _ _ (by decide) (by decide) (by decide) rfl rfl

/-- C4 counterexample: the delivery with event `pull_request`, a verifying
signature and the valid JSON body `"null"` passes the presence check,
signature verification and JSON parsing, yet the handler does not return
the 200 acknowledgement: `payload.action` on the `null` payload throws a
TypeError, so the claim as stated is false at this input. -/
theorem webhook_ack_all_events_counterexample :
    handleWebhook (fun _ _ => Except.ok true)
      (fun s => if s = "null" then some Json.null else none)
      ⟨some "pull_request", some "dlv-c4", some "sha256=good", "null"⟩ =
      Except.error "TypeError: Cannot read properties of null" := rfl

/-- C4 (amended): every request that passes the presence check, signature
verification and JSON parsing is answered with the 200 acknowledgement
`{ok: true, event, deliveryId}` echoing the event and delivery headers —
for every event type, including types other than `pull_request` — provided
that, when the event is `pull_request`, the parsed payload is not JSON
`null` (bare property access on `null` throws). -/
theorem webhook_ack_all_events
    (verify : String → String → Except String Bool) (parseJson : String → Option Json)
    (ev sig b : String) (dId : Option String) (payload : Json)
    (hev : ev ≠ "") (hsig : sig ≠ "") (hb : b ≠ "")
    (hv : verify b sig = Except.ok true) (hp : parseJson b = some payload)
    (hnull : ev = "pull_request" → payload ≠ Json.null) :
    ∃ logs, handleWebhook verify parseJson ⟨some ev, dId, some sig, b⟩ =
      Except.ok (⟨200, RespBody.ack ev dId⟩, logs) := by
  by_cases hpr : ev = "pull_request"
  · subst hpr
    refine ⟨["Received GitHub webhook: pull_request (delivery: " ++ showOptStr dId ++ ")",
      prHeadLine payload, prActionLine payload], ?_⟩
    simp [handleWebhook, hsig, hb, hv, hp, dispatchPullRequest_ok payload (hnull rfl)]
  · refine ⟨["Received GitHub webhook: " ++ ev ++ " (delivery: " ++ showOptStr dId ++ ")"], ?_⟩
    simp [handleWebhook, hev, hsig, hb, hv, hp, hpr]

/-- C4 witness: a verified, parsed delivery of a non-`pull_request` event
type is acknowledged with 200 echoing both headers. -/
theorem webhook_ack_all_events_witness :
    ∃ logs, handleWebhook (fun _ _ => Except.ok true) (fun _ => some (Json.obj []))
      ⟨some "issues", some "dlv-4", some "sha256=ok", "[]"⟩ =
      Except.ok (⟨200, RespBody.ack "issues" (some "dlv-4")⟩, logs) :=
  webhook_ack_all_events _ _ _ _ _ _ _ (by decide) (by decide) (by decide) rfl rfl
    (fun h => absurd h (by decide))

/-- C5: for a verified, parsed `pull_request` delivery whose action is
`"closed"`, pull-request number `n` and merged flag `m`, the handler
acknowledges with 200 and the produced log lines contain
`Pull request #n closed (merged: m)`, recording both the number and the
flag (`true` and `false` each rendered as such). -/
theorem webhook_closed_merged_log
    (verify : String → String → Except String Bool) (parseJson : String → Option Json)
    (sig b : String) (dId : Option String) (payload : Json) (n : Int) (m : Bool)
    (hsig : sig ≠ "") (hb : b ≠ "")
    (hv : verify b sig = Except.ok true) (hp : parseJson b = some payload)
    (hact : jsLookup payload "action" = some (Json.str "closed"))
    (hnum : optChainGet (jsLookup payload "pull_request") "number" = some (Json.num n))
    (hmer : optChainGet (jsLookup payload "pull_request") "merged" = some (Json.bool m)) :
    ∃ logs, handleWebhook verify parseJson ⟨some "pull_request", dId, some sig, b⟩ =
        Except.ok (⟨200, RespBody.ack "pull_request" dId⟩, logs) ∧
      ("Pull request #" ++ toString n ++ " closed (merged: " ++
        (cond m "true" "false") ++ ")") ∈ logs := by
  have hnn : payload ≠ Json.null := by
    intro h
    subst h
    simp [jsLookup] at hact
  have hline : prActionLine payload =
      "Pull request #" ++ toString n ++ " closed (merged: " ++
        (cond m "true" "false") ++ ")" := by
    simp [prActionLine, hact, hnum, hmer, showOptJs, jsToString]
  refine ⟨["Received GitHub webhook: pull_request (delivery: " ++ showOptStr dId ++ ")",
    prHeadLine payload, prActionLine payload], ?_, ?_⟩
  · simp [handleWebhook, hsig, hb, hv, hp, dispatchPullRequest_ok payload hnn]
  · simp [hline]

/-- C5 witness: a concrete closed-and-merged payload with number 7
produces the log line `Pull request #7 closed (merged: true)`. -/
theorem webhook_closed_merged_log_witness :
    ∃ logs, handleWebhook (fun _ _ => Except.ok true) (fun _ => some payloadClosedMerged)
        ⟨some "pull_request", some "dlv-5", some "sha256=w5", "x"⟩ =
        Except.ok (⟨200, RespBody.ack "pull_request" (some "dlv-5")⟩, logs) ∧
      ("Pull request #" ++ toString (7 : Int) ++ " closed (merged: " ++
        (cond true "true" "false") ++ ")") ∈ logs :=
  webhook_closed_merged_log _ _ _ _ _ _ _ _
    (by decide) (by decide) rfl rfl rfl rfl rfl

/-- C6 counterexample: the verified, parsed `pull_request` payload `null`
(body `"null"`) makes the handler raise a TypeError instead of returning
the 200 acknowledgement, so the claim as stated is false at this input:
the bare accesses `payload.action` and `payload.pull_request` are not
optional-chained on the payload itself. -/
theorem webhook_pull_request_tolerant_counterexample :
    handleWebhook (fun _ _ => Except.ok true)
      (fun s => if s = "null" then some Json.null else none)
      ⟨some "pull_request", some "dlv-c6", some "sha256=alsogood", "null"⟩ =
      Except.error "TypeError: Cannot read properties of null" := rfl

/-- C6 (amended): for every verified, parsed `pull_request` payload other
than JSON `null`, regardless of which of the fields `action`,
`pull_request`, `pull_request.number`, `pull_request.title` or
`pull_request.user.login` are absent, the handler raises no error: it
answers the 200 acknowledgement, and the two dispatch log lines are
produced with the absent fields rendered as absent values
(`prHeadLine`/`prActionLine` show `undefined` for them). -/
theorem webhook_pull_request_tolerant
    (verify : String → String → Except String Bool) (parseJson : String → Option Json)
    (sig b : String) (dId : Option String) (payload : Json)
    (hsig : sig ≠ "") (hb : b ≠ "")
    (hv : verify b sig = Except.ok true) (hp : parseJson b = some payload)
    (hnull : payload ≠ Json.null) :
    handleWebhook verify parseJson ⟨some "pull_request", dId, some sig, b⟩ =
      Except.ok (⟨200, RespBody.ack "pull_request" dId⟩,
        ["Received GitHub webhook: pull_request (delivery: " ++ showOptStr dId ++ ")",
         prHeadLine payload, prActionLine payload]) := by
  simp [handleWebhook, hsig, hb, hv, hp, dispatchPullRequest_ok payload hnull]

/-- C6 witness: the empty object payload — every optional field absent —
is acknowledged with 200 and logged with `undefined` values. -/
theorem webhook_pull_request_tolerant_witness :
    handleWebhook (fun _ _ => Except.ok true) (fun _ => some (Json.obj []))
      ⟨some "pull_request", some "dlv-6", some "sha256=w6", "y"⟩ =
      Except.ok (⟨200, RespBody.ack "pull_request" (some "dlv-6")⟩,
        ["Received GitHub webhook: pull_request (delivery: dlv-6)",
         prHeadLine (Json.obj []), prActionLine (Json.obj [])]) :=
  webhook_pull_request_tolerant _ _ _ _ _ _ (by decide) (by decide) rfl rfl
    (fun h => Json.noConfusion h)

/-- C7: whenever `GITHUB_APP_ID` or `GITHUB_PRIVATE_KEY` is unset or
empty, `createReviewComment` answers 500 with the missing-environment
message; the client `api` is universally quantified and absent from the
right-hand side, so no authentication or network call is attempted. -/
theorem createReviewComment_missing_config
    (api : GithubApi) (env : GithubEnv) (owner repo : String)
    (pullNumber : Int) (body : String)
    (h : optTruthy env.GITHUB_APP_ID = false ∨
      optTruthy env.GITHUB_PRIVATE_KEY = false) :
    createReviewComment api env owner repo pullNumber body =
      ⟨500, GHBody.errorMsg
        "Missing GITHUB_APP_ID or GITHUB_PRIVATE_KEY environment variables"⟩ := by
  rcases h with h | h <;> simp [createReviewComment, h]

/-- C7 witness: with `GITHUB_APP_ID` unset and an all-succeeding client,
the call still answers the configuration 500. -/
theorem createReviewComment_missing_config_witness :
    createReviewComment apiAllOk ⟨none, some "PEM", none⟩ "o" "r" 5 "hello" =
      ⟨500, GHBody.errorMsg
        "Missing GITHUB_APP_ID or GITHUB_PRIVATE_KEY environment variables"⟩ :=
  createReviewComment_missing_config _ _ _ _ _ _ (Or.inl rfl)

/-- C8: with configuration present, an error thrown at the
authentication, identity-confirmation or comment-creation stage is caught
and answered uniformly as 500 `{error: "Failed to create review comment"}`;
the detail string `d` of the thrown error is universally quantified and
absent from the response, so it is never propagated to the caller. -/
theorem createReviewComment_masks_upstream_errors
    (api : GithubApi) (env : GithubEnv) (owner repo : String)
    (pullNumber : Int) (body : String)
    (hA : optTruthy env.GITHUB_APP_ID = true)
    (hK : optTruthy env.GITHUB_PRIVATE_KEY = true) :
    let opts := octokitAuthOptions (env.GITHUB_APP_ID.getD "")
      (env.GITHUB_PRIVATE_KEY.getD "") env.GITHUB_INSTALLATION_ID
    let mode := authRequestType env.GITHUB_INSTALLATION_ID
    (∀ d, api.auth opts mode = ApiResult.err d →
      createReviewComment api env owner repo pullNumber body =
        ⟨500, GHBody.errorMsg "Failed to create review comment"⟩) ∧
    (∀ t d, api.auth opts mode = ApiResult.ok t →
      api.getApp opts = ApiResult.err d →
      createReviewComment api env owner repo pullNumber body =
        ⟨500, GHBody.errorMsg "Failed to create review comment"⟩) ∧
    (∀ t a d, api.auth opts mode = ApiResult.ok t →
      api.getApp opts = ApiResult.ok (some a) →
      api.createComment opts owner repo pullNumber body = ApiResult.err d →
      createReviewComment api env owner repo pullNumber body =
        ⟨500, GHBody.errorMsg "Failed to create review comment"⟩) := by
  refine ⟨?_, ?_, ?_⟩
  · intro d hd
    simp [createReviewComment, hA, hK, hd]
  · intro t d ht hd
    simp [createReviewComment, hA, hK, ht, hd]
  · intro t a d ht ha hd
    simp [createReviewComment, hA, hK, ht, ha, hd]

/-- C8 witness: a client whose authentication throws `"jwt expired"` gets
the generic 500, with no trace of the detail. -/
theorem createReviewComment_masks_upstream_errors_witness :
    createReviewComment apiAuthError ⟨some "123", some "PEM", none⟩ "o" "r" 9 "hi" =
      ⟨500, GHBody.errorMsg "Failed to create review comment"⟩ :=
  (createReviewComment_masks_upstream_errors apiAuthError
    ⟨some "123", some "PEM", none⟩ "o" "r" 9 "hi" (by decide) (by decide)).1
    "jwt expired" rfl

/-- C9: the handler threads no state between deliveries, so replaying the
same delivery (same headers and body) after any history of previous
deliveries yields the same result — in particular the same
acknowledgement — both times, with no deduplication. -/
theorem webhook_replay_deterministic
    (verify : String → String → Except String Bool) (parseJson : String → Option Json)
    (history : List WebhookRequest) (req : WebhookRequest) :
    processDeliveries verify parseJson (history ++ [req, req]) =
      processDeliveries verify parseJson history ++
        [handleWebhook verify parseJson req, handleWebhook verify parseJson req] := by
  simp [processDeliveries]

/-- C10: the authentication mode follows the truthiness of
`GITHUB_INSTALLATION_ID`, not its mere presence: unset or empty gives
`"app"` mode with no `installationId` field in the Octokit auth options,
while any non-empty value gives `"installation"` mode with the field set
to the `parseInt` of the value. -/
theorem installation_mode_by_truthiness (appId privateKey : String) :
    (authRequestType none = "app" ∧
      (octokitAuthOptions appId privateKey none).installationId = none) ∧
    (authRequestType (some "") = "app" ∧
      (octokitAuthOptions appId privateKey (some "")).installationId = none) ∧
    ∀ s : String, s ≠ "" →
      authRequestType (some s) = "installation" ∧
        (octokitAuthOptions appId privateKey (some s)).installationId =
          some (parseInt10 s) := by
  refine ⟨⟨rfl, rfl⟩, ⟨rfl, rfl⟩, fun s hs => ?_⟩
  constructor <;> simp [authRequestType, octokitAuthOptions, optTruthy, hs]

/-- C10 witness: the non-empty value `"123"` selects installation mode
and passes its parsed identifier. -/
theorem installation_mode_by_truthiness_witness :
    authRequestType (some "123") = "installation" ∧
      (octokitAuthOptions "77" "PEM" (some "123")).installationId =
        some (parseInt10 "123") :=
  (installation_mode_by_truthiness "77" "PEM").2.2 "123" (by decide)
